import Mathlib

/-!
Verification development for the personal-music-ai pipeline.

Shallow embedding of the repository's own logic:
* `music_generate_image_copy.py` — the image-path emotion aggregator
  (`analyze_emotion_from_image_node`) and its brief-composition node;
* `scripts/music_generator_core.py` — the text-path emotion node, the
  brief-composition node, the Replicate adapter
  (`generate_with_replicate_strict`, `_replicate_run`) and the orchestrator
  branch (`should_generate`);
* `scripts/gradio_app.py` — the session cache (`AppState`, `_norm`) and the
  three UI actions (`analyze_emotion_only`, `generate_music_brief_only`,
  `generate_full_music`).

Modelling conventions: Python floats are embedded as exact rationals (ℚ);
`float(f"{x:.2f}")` becomes rounding half-up to two decimal places, which
agrees with CPython's formatting on all values arising in the statements
below.  Hosted models (the CLIP scorer, the two structured-output LLM calls,
the Replicate audio job) are oracles passed as function parameters; every
UI action additionally returns the number of hosted-model invocations it
performed.  Rendered markdown/Korean explanation strings are abstracted to
the data they display; status strings are kept verbatim.
-/

namespace MusicAI

/-- Embeds `_r2`: `float(f"{x:.2f}")`, i.e. rounding to two decimal places
(half away from zero on the positive values arising here). -/
def r2 (x : ℚ) : ℚ := (round (x * 100) : ℤ) / 100

/-- Embeds Python `str.split()` (no separator): split on runs of whitespace,
dropping empty tokens.  Structural recursion over the character list with an
accumulator for the token being built. -/
def ws_split_go : List Char → List Char → List (List Char)
  | [], acc => if acc.isEmpty then [] else [acc.reverse]
  | c :: cs, acc =>
    if c.isWhitespace then
      if acc.isEmpty then ws_split_go cs [] else acc.reverse :: ws_split_go cs []
    else
      ws_split_go cs (c :: acc)

/-- Embeds `_norm` from `gradio_app.py`:
`" ".join((s or "").split()).strip()`.  The trailing `.strip()` is a no-op
because the joined tokens contain no whitespace at either end. -/
def _norm (s : String) : String :=
  String.mk (List.intercalate [' '] (ws_split_go s.toList []))

/-- Python truthiness of `os.getenv(...)`: `None` and the empty string are
falsy, any other string is truthy. -/
def envTruthy : Option String → Bool
  | none => false
  | some s => s != ""

/-- The recognized environment variables (§6 of the spec). -/
structure Env where
  OPENAI_API_KEY : Option String
  REPLICATE_API_TOKEN : Option String
  USE_REPLICATE : Option String
deriving DecidableEq

/-- The static valence/arousal/primary lookup attached to each CLIP anchor
sentence (the `hints` dict in `CLIP_MOODS`). -/
structure MoodHints where
  valence : ℚ
  arousal : ℚ
  primary : String
deriving DecidableEq

/-- One ranked candidate produced by `analyze_image_clip` (the display-only
`ko_keywords` list is not modelled). -/
structure MoodCandidate where
  label : String
  score : ℚ
  hints : MoodHints
deriving DecidableEq

/-- The six fixed anchor sentences with their hint values (`CLIP_MOODS`). -/
def CLIP_MOODS : List (String × MoodHints) :=
  [ ("A happy and joyful photo",       ⟨7/10,  6/10,  "joy"⟩),
    ("A calm and peaceful photo",      ⟨2/5,   7/20,  "calm"⟩),
    ("An energetic and vibrant photo", ⟨1/2,   3/4,   "energy"⟩),
    ("A mysterious and dreamy photo",  ⟨1/5,   1/2,   "mystery"⟩),
    ("A sad and melancholic photo",    ⟨-3/5,  9/20,  "sadness"⟩),
    ("A lonely and gloomy photo",      ⟨-1/2,  2/5,   "lonely"⟩) ]

/-- `EmotionResult` (pydantic model).  The free-text `reasons` explanation
string is abstracted away: no claim inspects it, and its construction
(`_make_korean_reason`) only formats the numeric values proved about here. -/
structure EmotionResult where
  primary : String
  valence : ℚ
  arousal : ℚ
  confidence : ℚ
deriving DecidableEq

/-- The pydantic field bounds of `EmotionResult`
(`Valence = Field(ge=-1, le=1)`, `Arousal = Field(ge=0, le=1)`): the
structured-output layer rejects (raises on) any model reply outside them. -/
def EmotionResult.schema_valid (e : EmotionResult) : Bool :=
  decide (-1 ≤ e.valence) && decide (e.valence ≤ 1) &&
  decide (0 ≤ e.arousal) && decide (e.arousal ≤ 1) &&
  decide (0 ≤ e.confidence) && decide (e.confidence ≤ 1)

/-- `MusicBrief` (pydantic model); `duration_sec` is carried as an
unconstrained integer so that the nodes' own duration correction can be
stated for arbitrary generator replies. -/
structure MusicBrief where
  mood : String
  bpm : ℤ
  key : String
  duration_sec : ℤ
  instruments : List String
  style_tags : List String
  prompt : String
deriving DecidableEq

/-- Lines 192–195 of `music_generate_image_copy.py`: the weighted blend of
the top-2 valence hints, with `s = (w1 + w2) or 1.0`. -/
def blended_valence (top second : MoodCandidate) : ℚ :=
  let s := if top.score + second.score = 0 then 1 else top.score + second.score
  (top.hints.valence * top.score + second.hints.valence * second.score) / s

/-- Lines 192–195 of `music_generate_image_copy.py`: the weighted blend of
the top-2 arousal hints, with `s = (w1 + w2) or 1.0`. -/
def blended_arousal (top second : MoodCandidate) : ℚ :=
  let s := if top.score + second.score = 0 then 1 else top.score + second.score
  (top.hints.arousal * top.score + second.hints.arousal * second.score) / s

/-- `analyze_emotion_from_image_node`, given the ranked candidate list that
`analyze_image_clip` produced.  Python raises `IndexError` on an empty list
(`ranked[0]`), embedded as `none`. -/
def analyze_emotion_from_image_node : List MoodCandidate → Option EmotionResult
  | [] => none
  | [top] =>
    some { primary := top.hints.primary
           valence := r2 (max (-1) (min 1 top.hints.valence))
           arousal := r2 (max 0 (min 1 top.hints.arousal))
           confidence := r2 (max 0 (min 1 (min (9/10) (max (1/2) top.score)))) }
  | top :: second :: _ =>
    some { primary := top.hints.primary
           valence := r2 (max (-1) (min 1 (blended_valence top second)))
           arousal := r2 (max 0 (min 1 (blended_arousal top second)))
           confidence := r2 (max 0 (min 1 (min (9/10) (max (1/2) top.score)))) }

/-- The text-path emotion node (`analyze_emotion_node` in
`music_generator_core.py`): the hosted LLM's structured reply (oracle `llm`)
is validated against the `EmotionResult` schema bounds and stored unchanged;
a reply outside the bounds raises (a model/schema violation). -/
def analyze_emotion_node (llm : String → EmotionResult) (user_text : String) :
    Except String EmotionResult :=
  let result := llm user_text
  if result.schema_valid then .ok result else .error "model/schema violation"

/-- The duration correction shared by both brief-composition nodes
(`music_generator_core.py` lines 133–136, `music_generate_image_copy.py`
lines 266–269). -/
def clamp_duration (brief : MusicBrief) : MusicBrief :=
  if brief.duration_sec < 120 then { brief with duration_sec := 120 }
  else if brief.duration_sec > 180 then { brief with duration_sec := 180 }
  else brief

/-- The text-path `compose_brief_node`: the hosted LLM (oracle `llm`, fed the
user text and the emotion tuple) returns a brief, whose duration is then
corrected into [120, 180]. -/
def compose_brief_node (llm : String → EmotionResult → MusicBrief)
    (user_text : String) (emotion : EmotionResult) : MusicBrief :=
  clamp_duration (llm user_text emotion)

/-- The image-path `compose_brief_node` from `music_generate_image_copy.py`
(fed only the emotion tuple), with the same duration correction. -/
def image_compose_brief_node (llm : EmotionResult → MusicBrief)
    (emotion : EmotionResult) : MusicBrief :=
  clamp_duration (llm emotion)

/-- Terminal statuses of a Replicate prediction, as tested by the REST
polling loop in `_replicate_run`. -/
inductive JobStatus
  | succeeded
  | failed
  | canceled
deriving DecidableEq

/-- The state a Replicate job eventually reaches: the fixed-interval polling
loop of `_replicate_run` is abstracted to its terminal status together with
the job's output (the first result URL). -/
structure ReplicateJob where
  terminal_status : JobStatus
  output : String
deriving DecidableEq

/-- `_replicate_run`: the native `replicate.run` path (taken when the
package imported, `_HAVE_REPLICATE`) delegates entirely to the external
client, abstracted by `native_out`; the REST fallback polls until a terminal
status and raises unless that status is `succeeded`. -/
def replicate_run (have_replicate : Bool) (native_out : String)
    (job : ReplicateJob) : Except String String :=
  if have_replicate then .ok native_out
  else
    match job.terminal_status with
    | .succeeded => .ok job.output
    | .failed => .error "Replicate failed: failed"
    | .canceled => .error "Replicate failed: canceled"

/-- `generate_with_replicate_strict`: asserts the token is present (truthy)
and the duration in [120, 180] before any network call, then runs the job
and saves the first output (`_save_first_output_to_file`, abstracted by the
`save` oracle).  The second component records whether the generation API was
invoked. -/
def generate_with_replicate_strict (env : Env) (have_replicate : Bool)
    (native_out : String) (job : ReplicateJob) (save : String → String)
    (_prompt : String) (duration : ℤ) : Except String String × Bool :=
  if !envTruthy env.REPLICATE_API_TOKEN then
    (.error "REPLICATE_API_TOKEN이 없습니다 (.env 확인)", false)
  else if !(decide (120 ≤ duration) && decide (duration ≤ 180)) then
    (.error "duration(초)은 120~180 범위여야 합니다", false)
  else
    match replicate_run have_replicate native_out job with
    | .ok out => (.ok (save out), true)
    | .error e => (.error e, true)

/-- `should_generate`, the orchestrator's only branch: proceed to audio
generation when (the `USE_REPLICATE` flag is `"1"` or the state carries
`force_generate is True`) and a Replicate token is present. -/
def should_generate (env : Env) (force_generate : Option Bool) : String :=
  let use_flag := (env.USE_REPLICATE.getD "0" == "1") || (force_generate == some true)
  let has_token := envTruthy env.REPLICATE_API_TOKEN
  if use_flag && has_token then "go" else "skip"

/-- The external collaborators of the app layer, bundled: the CLIP scorer,
the two structured-output LLM oracles (returning the model's raw reply,
before schema validation), the brief composer of the image path, the
file-saving and file-renaming glue, and the native Replicate client's
output. -/
structure Ext where
  clip : String → List MoodCandidate
  emotion_llm : String → EmotionResult
  compose_llm : String → EmotionResult → MusicBrief
  image_compose_llm : EmotionResult → MusicBrief
  save : String → String
  rename : String → MusicBrief → String
  have_replicate : Bool
  native_out : String

/-- The final state of a text-path `graph.invoke`: fresh emotion, fresh
brief, and an audio path when the conditional edge chose generation. -/
structure GraphFinal where
  emotion : EmotionResult
  brief : MusicBrief
  audio_path : Option String
deriving DecidableEq

/-- The compiled text graph of `music_generator_core.py`:
`analyze_emotion → compose_brief → (generate_music | mark_skipped)`, the
branch decided by `should_generate`.  Also returns the number of
hosted-model invocations (LLM calls plus an audio-API call when made). -/
def graph_invoke (env : Env) (ext : Ext) (user_text : String)
    (force_generate : Option Bool) (job : ReplicateJob) :
    Except String GraphFinal × Nat :=
  match analyze_emotion_node ext.emotion_llm user_text with
  | .error e => (.error e, 1)
  | .ok emo =>
    let brief := compose_brief_node ext.compose_llm user_text emo
    if should_generate env force_generate == "go" then
      match generate_with_replicate_strict env ext.have_replicate ext.native_out
          job ext.save brief.prompt brief.duration_sec with
      | (.ok path, called) => (.ok ⟨emo, brief, some path⟩, 2 + (if called then 1 else 0))
      | (.error e, called) => (.error e, 2 + (if called then 1 else 0))
    else
      (.ok ⟨emo, brief, none⟩, 2)

/-- The compiled image graph of `music_generate_image_copy.py`:
`analyze_emotion_from_image → compose_brief` (no generation step). -/
def image_graph_invoke (ext : Ext) (image_path : String) :
    Except String (EmotionResult × MusicBrief) × Nat :=
  match analyze_emotion_from_image_node (ext.clip image_path) with
  | none => (.error "IndexError", 1)
  | some emo => (.ok (emo, image_compose_brief_node ext.image_compose_llm emo), 2)

/-- The session cache of `gradio_app.py` (`AppState`): last input identity,
last `EmotionResult`, last `MusicBrief`, and the active input mode. -/
structure AppState where
  emotion_result : Option EmotionResult
  music_brief : Option MusicBrief
  user_story : Option String
  image_path : Option String
  current_mode : String
deriving DecidableEq

/-- `AppState.clear`: reset every slot (and the mode back to `"text"`). -/
def AppState.clear (_st : AppState) : AppState :=
  { emotion_result := none, music_brief := none, user_story := none
    image_path := none, current_mode := "text" }

/-- `AppState.set_story`: record the whitespace-normalized story and switch
to text mode. -/
def AppState.set_story (st : AppState) (s : String) : AppState :=
  { st with user_story := some (_norm s), current_mode := "text" }

/-- `AppState.set_image`: record the image path and switch to image mode. -/
def AppState.set_image (st : AppState) (p : String) : AppState :=
  { st with image_path := some p, current_mode := "image" }

/-- `AppState.has_emotion_analysis`: a cached emotion result is valid when
the stored input identity matches the current one (normalized story in text
mode, path equality in image mode). -/
def AppState.has_emotion_analysis (st : AppState)
    (current_story current_image : Option String) : Bool :=
  if st.current_mode == "text" then
    st.emotion_result.isSome && (st.user_story == some (_norm (current_story.getD "")))
  else
    st.emotion_result.isSome && (st.image_path == current_image)

/-- `AppState.has_music_brief`: same validity test for the cached brief. -/
def AppState.has_music_brief (st : AppState)
    (current_story current_image : Option String) : Bool :=
  if st.current_mode == "text" then
    st.music_brief.isSome && (st.user_story == some (_norm (current_story.getD "")))
  else
    st.music_brief.isSome && (st.image_path == current_image)

/-- What the two analysis-only actions render: the emotion and brief panes
(abstracted from `md_emotion`/`md_brief` markdown to the data shown; `none`
when an error or info message is shown instead) and the verbatim status
string. -/
structure UIOut where
  shown_emotion : Option EmotionResult
  shown_brief : Option MusicBrief
  status : String
deriving DecidableEq

/-- `analyze_emotion_only`: clears the cache when the input identity
changed, reuses a valid cached emotion result, otherwise runs the matching
analysis node.  Returns the new session state, the rendered output, and the
number of hosted-model invocations. -/
def analyze_emotion_only (ext : Ext) (st0 : AppState)
    (user_story : String) (image_input : Option String) :
    AppState × UIOut × Nat :=
  match image_input with
  | some img =>
    let st1 := if st0.image_path != some img then (st0.clear).set_image img else st0
    if st1.has_emotion_analysis none (some img) then
      (st1, ⟨st1.emotion_result, none, "♻️ 이전 감정 분석 결과 재사용 (이미지)"⟩, 0)
    else
      match analyze_emotion_from_image_node (ext.clip img) with
      | some emo =>
        ({ st1 with emotion_result := some emo },
         ⟨some emo, none, "✅ 이미지 감정 분석 완료!"⟩, 1)
      | none => (st1, ⟨none, none, "❌ 감정 분석 중 오류 발생"⟩, 1)
  | none =>
    if _norm user_story == "" then
      (st0, ⟨none, none, "⚠️ 입력이 비어 있습니다."⟩, 0)
    else
      let st1 := if st0.user_story != some (_norm user_story) then
        (st0.clear).set_story user_story else st0
      if st1.has_emotion_analysis (some user_story) none then
        (st1, ⟨st1.emotion_result, none, "♻️ 이전 감정 분석 결과 재사용 (텍스트)"⟩, 0)
      else
        match analyze_emotion_node ext.emotion_llm user_story with
        | .ok emo =>
          ({ st1 with emotion_result := some emo },
           ⟨some emo, none, "✅ 텍스트 감정 분석 완료!"⟩, 1)
        | .error _ => (st1, ⟨none, none, "❌ 감정 분석 중 오류 발생"⟩, 1)

/-- `generate_music_brief_only`: same invalidation and emotion reuse as
`analyze_emotion_only`, then always composes a fresh brief. -/
def generate_music_brief_only (ext : Ext) (st0 : AppState)
    (user_story : String) (image_input : Option String) :
    AppState × UIOut × Nat :=
  match image_input with
  | some img =>
    let st1 := if st0.image_path != some img then (st0.clear).set_image img else st0
    if st1.has_emotion_analysis none (some img) then
      match st1.emotion_result with
      | some emo =>
        let brief := image_compose_brief_node ext.image_compose_llm emo
        ({ st1 with music_brief := some brief },
         ⟨some emo, some brief, "✅ 이미지 감정 분석 및 음악 브리프 생성 완료!"⟩, 1)
      | none => (st1, ⟨none, none, "❌ 처리 중 오류 발생"⟩, 0)
    else
      match analyze_emotion_from_image_node (ext.clip img) with
      | some emo =>
        let brief := image_compose_brief_node ext.image_compose_llm emo
        ({ st1 with emotion_result := some emo, music_brief := some brief },
         ⟨some emo, some brief, "✅ 이미지 감정 분석 및 음악 브리프 생성 완료!"⟩, 2)
      | none => (st1, ⟨none, none, "❌ 처리 중 오류 발생"⟩, 1)
  | none =>
    if _norm user_story == "" then
      (st0, ⟨none, none, "⚠️ 입력이 비어 있습니다."⟩, 0)
    else
      let st1 := if st0.user_story != some (_norm user_story) then
        (st0.clear).set_story user_story else st0
      if st1.has_emotion_analysis (some user_story) none then
        match st1.emotion_result with
        | some emo =>
          let brief := compose_brief_node ext.compose_llm user_story emo
          ({ st1 with music_brief := some brief },
           ⟨some emo, some brief, "✅ 텍스트 감정 분석 및 음악 브리프 생성 완료!"⟩, 1)
        | none => (st1, ⟨none, none, "❌ 처리 중 오류 발생"⟩, 0)
      else
        match analyze_emotion_node ext.emotion_llm user_story with
        | .ok emo =>
          let brief := compose_brief_node ext.compose_llm user_story emo
          ({ st1 with emotion_result := some emo, music_brief := some brief },
           ⟨some emo, some brief, "✅ 텍스트 감정 분석 및 음악 브리프 생성 완료!"⟩, 2)
        | .error _ => (st1, ⟨none, none, "❌ 처리 중 오류 발생"⟩, 1)

/-- What `generate_full_music` renders: the emotion and brief panes, the
audio player path, and the verbatim status string (the tab-selection update
is not modelled). -/
structure FullOut where
  shown_emotion : Option EmotionResult
  shown_brief : Option MusicBrief
  audio : Option String
  status : String
deriving DecidableEq

/-- The rendered output of `generate_full_music`'s exception handler
(`"❌ 처리 중 오류: ..."`, the appended exception text abstracted away). -/
def full_error_out : FullOut := ⟨none, none, none, "❌ 처리 중 오류"⟩

/-- `generate_full_music`: guard on empty input, invalidate the cache when
the input identity changed, check the environment, then either run
analysis/brief only (synthesis skipped) or reuse/compose/one-shot and
synthesize.  Exceptions keep every session-state mutation made before the
raise, exactly as the Python `except` block does on the global `app_state`. -/
def generate_full_music (env : Env) (ext : Ext) (job : ReplicateJob)
    (st0 : AppState) (user_story : String) (image_input : Option String) :
    AppState × FullOut × Nat :=
  if image_input == none && _norm user_story == "" then
    (st0, ⟨none, none, none, "⚠️ 입력이 비어 있습니다."⟩, 0)
  else
    let st1 :=
      match image_input with
      | some img => if st0.image_path != some img then (st0.clear).set_image img else st0
      | none =>
        if st0.user_story != some (_norm user_story) then (st0.clear).set_story user_story
        else st0
    if !envTruthy env.OPENAI_API_KEY then
      (st1, ⟨none, none, none, "❌ OPENAI_API_KEY 필요"⟩, 0)
    else if !(envTruthy env.REPLICATE_API_TOKEN && (env.USE_REPLICATE.getD "0" == "1")) then
      let step1 : Option AppState × Nat :=
        if st1.current_mode == "image" then
          if st1.has_emotion_analysis none image_input then (some st1, 0)
          else
            match image_input with
            | some img =>
              match analyze_emotion_from_image_node (ext.clip img) with
              | some emo => (some { st1 with emotion_result := some emo }, 1)
              | none => (none, 1)
            | none => (none, 0)
        else
          if st1.has_emotion_analysis (some user_story) none then (some st1, 0)
          else
            match analyze_emotion_node ext.emotion_llm user_story with
            | .ok emo => (some { st1 with emotion_result := some emo }, 1)
            | .error _ => (none, 1)
      match step1 with
      | (none, n) => (st1, full_error_out, n)
      | (some st2, n) =>
        let step2 : Option AppState × Nat :=
          if st2.current_mode == "image" then
            if st2.has_music_brief none image_input then (some st2, 0)
            else
              match st2.emotion_result with
              | some emo =>
                (some { st2 with
                  music_brief := some (image_compose_brief_node ext.image_compose_llm emo) }, 1)
              | none => (none, 0)
          else
            if st2.has_music_brief (some user_story) none then (some st2, 0)
            else
              match st2.emotion_result with
              | some emo =>
                (some { st2 with
                  music_brief := some (compose_brief_node ext.compose_llm user_story emo) }, 1)
              | none => (none, 0)
        match step2 with
        | (none, m) => (st2, full_error_out, n + m)
        | (some st3, m) =>
          match st3.emotion_result, st3.music_brief with
          | some emo, some brief =>
            (st3, ⟨some emo, some brief, none,
              "⚠️ USE_REPLICATE=1 또는 REPLICATE 토큰 없음 → 음악 생성 건너뜀"⟩, n + m)
          | _, _ => (st3, full_error_out, n + m)
    else
      if st1.has_emotion_analysis (some user_story) image_input &&
         st1.has_music_brief (some user_story) image_input then
        match st1.emotion_result, st1.music_brief with
        | some emo, some brief =>
          match generate_with_replicate_strict env ext.have_replicate ext.native_out
              job ext.save brief.prompt brief.duration_sec with
          | (.ok path, called) =>
            (st1, ⟨some emo, some brief, some (ext.rename path brief),
              "🎵 기존 분석/브리프 재사용하여 음악 생성 (" ++ st1.current_mode ++ ")"⟩,
             if called then 1 else 0)
          | (.error _, called) => (st1, full_error_out, if called then 1 else 0)
        | _, _ => (st1, full_error_out, 0)
      else if st1.has_emotion_analysis (some user_story) image_input then
        match st1.emotion_result with
        | some emo =>
          let brief :=
            if st1.current_mode == "image" then image_compose_brief_node ext.image_compose_llm emo
            else compose_brief_node ext.compose_llm user_story emo
          let st2 := { st1 with music_brief := some brief }
          match generate_with_replicate_strict env ext.have_replicate ext.native_out
              job ext.save brief.prompt brief.duration_sec with
          | (.ok path, called) =>
            (st2, ⟨some emo, some brief, some (ext.rename path brief),
              "🧩 기존 감정 분석 재사용 → 브리프 생성 → 음악 생성 (" ++ st1.current_mode ++ ")"⟩,
             1 + (if called then 1 else 0))
          | (.error _, called) => (st2, full_error_out, 1 + (if called then 1 else 0))
        | none => (st1, full_error_out, 0)
      else
        if st1.current_mode == "image" then
          match image_input with
          | none => (st1, full_error_out, 0)
          | some img =>
            match image_graph_invoke ext img with
            | (.error _, n) => (st1, full_error_out, n)
            | (.ok (emo, brief), n) =>
              let st2 := { st1 with emotion_result := some emo, music_brief := some brief }
              match generate_with_replicate_strict env ext.have_replicate ext.native_out
                  job ext.save brief.prompt brief.duration_sec with
              | (.ok path, called) =>
                (st2, ⟨some emo, some brief, some (ext.rename path brief),
                  "🚀 원샷 생성 (" ++ st1.current_mode ++ " 모드)"⟩,
                 n + (if called then 1 else 0))
              | (.error _, called) => (st2, full_error_out, n + (if called then 1 else 0))
        else
          match graph_invoke env ext user_story (some true) job with
          | (.error _, n) => (st1, full_error_out, n)
          | (.ok final, n) =>
            let st2 := { st1 with emotion_result := some final.emotion
                                  music_brief := some final.brief }
            match final.audio_path with
            | some path =>
              (st2, ⟨some final.emotion, some final.brief,
                some (ext.rename path final.brief),
                "🚀 원샷 생성 (" ++ st1.current_mode ++ " 모드)"⟩, n)
            | none => (st2, full_error_out, n)

/-- A fixed collaborator bundle used by concrete cache-behaviour scenarios:
CLIP always ranks the joy anchor alone at score 0.8, the emotion LLM always
replies with the matching (schema-valid) tuple, and both composers always
return one fixed in-range brief. -/
def ext_fixed : Ext :=
  ⟨fun _ => [⟨"A happy and joyful photo", 4/5, ⟨7/10, 6/10, "joy"⟩⟩],
   fun _ => ⟨"joy", 7/10, 3/5, 4/5⟩,
   fun _ _ => ⟨"calm", 80, "C", 150, [], [], "p"⟩,
   fun _ => ⟨"calm", 80, "C", 150, [], [], "p"⟩,
   fun u => u, fun p _ => p, false, "n"⟩

/-! ## Helper lemmas about two-decimal rounding -/

lemma r2_int_div_100 (k : ℤ) : r2 ((k : ℚ) / 100) = (k : ℚ) / 100 := by
  have h : ((k : ℚ) / 100) * 100 = (k : ℚ) := by field_simp
  unfold r2
  rw [h, round_intCast]

lemma r2_idem (x : ℚ) : r2 (r2 x) = r2 x := r2_int_div_100 _

lemma r2_le_r2 {x y : ℚ} (h : x ≤ y) : r2 x ≤ r2 y := by
  unfold r2
  have hfl : round (x * 100) ≤ round (y * 100) := by
    rw [round_eq, round_eq]
    exact Int.floor_mono (by linarith)
  have hq : ((round (x * 100) : ℤ) : ℚ) ≤ ((round (y * 100) : ℤ) : ℚ) := by
    exact_mod_cast hfl
  linarith

lemma r2_bounds {a b : ℤ} {x : ℚ} (h1 : (a : ℚ) / 100 ≤ x) (h2 : x ≤ (b : ℚ) / 100) :
    (a : ℚ) / 100 ≤ r2 x ∧ r2 x ≤ (b : ℚ) / 100 := by
  constructor
  · have h := r2_le_r2 h1; rwa [r2_int_div_100] at h
  · have h := r2_le_r2 h2; rwa [r2_int_div_100] at h

lemma weighted_between {v1 v2 s1 s2 : ℚ} (h1 : 0 ≤ s1) (h2 : 0 ≤ s2)
    (hpos : 0 < s1 + s2) :
    min v1 v2 ≤ (v1 * s1 + v2 * s2) / (s1 + s2) ∧
    (v1 * s1 + v2 * s2) / (s1 + s2) ≤ max v1 v2 := by
  constructor
  · rw [le_div_iff₀ hpos]
    nlinarith [mul_le_mul_of_nonneg_right (min_le_left v1 v2) h1,
      mul_le_mul_of_nonneg_right (min_le_right v1 v2) h2]
  · rw [div_le_iff₀ hpos]
    nlinarith [mul_le_mul_of_nonneg_right (le_max_left v1 v2) h1,
      mul_le_mul_of_nonneg_right (le_max_right v1 v2) h2]

/-! ## Claims -/

/-- C1: for every ranked candidate list with at least two entries the image
aggregator blends valence as (v1·s1 + v2·s2)/(s1+s2) and arousal likewise,
with denominator 1.0 when both scores are exactly zero, and takes the
primary label from the top-1 candidate alone; in particular top = (0.7,
valence 0.7, arousal 0.6) and second = (0.3, valence 0.4, arousal 0.35)
store valence 0.61 and arousal 0.53. -/
theorem c1_image_blend (top second : MoodCandidate) (rest : List MoodCandidate)
    (h1 : 0 ≤ top.score) (h2 : 0 ≤ second.score) :
    (∃ e, analyze_emotion_from_image_node (top :: second :: rest) = some e ∧
      e.primary = top.hints.primary ∧
      e.valence = r2 (max (-1) (min 1
        ((top.hints.valence * top.score + second.hints.valence * second.score) /
          (if top.score = 0 ∧ second.score = 0 then 1 else top.score + second.score)))) ∧
      e.arousal = r2 (max 0 (min 1
        ((top.hints.arousal * top.score + second.hints.arousal * second.score) /
          (if top.score = 0 ∧ second.score = 0 then 1 else top.score + second.score))))) ∧
    analyze_emotion_from_image_node
        [⟨"A happy and joyful photo", 7/10, ⟨7/10, 6/10, "joy"⟩⟩,
         ⟨"A calm and peaceful photo", 3/10, ⟨2/5, 7/20, "calm"⟩⟩] =
      some ⟨"joy", 61/100, 53/100, 7/10⟩ := by
  have hden : (if top.score + second.score = 0 then (1 : ℚ) else top.score + second.score) =
      (if top.score = 0 ∧ second.score = 0 then 1 else top.score + second.score) := by
    by_cases h : top.score + second.score = 0
    · rw [if_pos h, if_pos ((add_eq_zero_iff_of_nonneg h1 h2).1 h)]
    · rw [if_neg h, if_neg (fun hc => h (by rw [hc.1, hc.2, add_zero]))]
  refine ⟨⟨_, rfl, rfl, ?_, ?_⟩, by with_unfolding_all decide⟩
  · show r2 (max (-1) (min 1 (blended_valence top second))) = _
    unfold blended_valence
    rw [hden]
  · show r2 (max 0 (min 1 (blended_arousal top second))) = _
    unfold blended_arousal
    rw [hden]

/-- Witness for C1 at the spec's own example input. -/
theorem c1_image_blend_witness :
    analyze_emotion_from_image_node
        [⟨"A happy and joyful photo", 7/10, ⟨7/10, 6/10, "joy"⟩⟩,
         ⟨"A calm and peaceful photo", 3/10, ⟨2/5, 7/20, "calm"⟩⟩] =
      some ⟨"joy", 61/100, 53/100, 7/10⟩ :=
  (c1_image_blend ⟨"A happy and joyful photo", 7/10, ⟨7/10, 6/10, "joy"⟩⟩
    ⟨"A calm and peaceful photo", 3/10, ⟨2/5, 7/20, "calm"⟩⟩ []
    (by norm_num) (by norm_num)).2

/-- C2 counterexample: with both scores exactly zero the blend is 0/1.0 = 0,
which lies between neither the two valence hints (0.7 and 0.4) nor the two
arousal hints (0.6 and 0.35). -/
theorem c2_counterexample :
    ¬ (min (7/10 : ℚ) (2/5) ≤
        blended_valence ⟨"A happy and joyful photo", 0, ⟨7/10, 6/10, "joy"⟩⟩
          ⟨"A calm and peaceful photo", 0, ⟨2/5, 7/20, "calm"⟩⟩ ∧
       blended_valence ⟨"A happy and joyful photo", 0, ⟨7/10, 6/10, "joy"⟩⟩
          ⟨"A calm and peaceful photo", 0, ⟨2/5, 7/20, "calm"⟩⟩ ≤ max (7/10) (2/5)) ∧
    ¬ (min (6/10 : ℚ) (7/20) ≤
        blended_arousal ⟨"A happy and joyful photo", 0, ⟨7/10, 6/10, "joy"⟩⟩
          ⟨"A calm and peaceful photo", 0, ⟨2/5, 7/20, "calm"⟩⟩ ∧
       blended_arousal ⟨"A happy and joyful photo", 0, ⟨7/10, 6/10, "joy"⟩⟩
          ⟨"A calm and peaceful photo", 0, ⟨2/5, 7/20, "calm"⟩⟩ ≤ max (6/10) (7/20)) := by
  with_unfolding_all decide

/-- C2 amended: for candidates with nonnegative scores of positive sum, the
blended valence and arousal lie between the two candidates' hint values;
when both scores are zero the blend is 0/1.0 = 0, which can lie outside. -/
theorem c2_blend_between (top second : MoodCandidate)
    (h1 : 0 ≤ top.score) (h2 : 0 ≤ second.score)
    (hpos : 0 < top.score + second.score) :
    min top.hints.valence second.hints.valence ≤ blended_valence top second ∧
    blended_valence top second ≤ max top.hints.valence second.hints.valence ∧
    min top.hints.arousal second.hints.arousal ≤ blended_arousal top second ∧
    blended_arousal top second ≤ max top.hints.arousal second.hints.arousal := by
  have hne : ¬ (top.score + second.score = 0) := ne_of_gt hpos
  have hv := @weighted_between top.hints.valence second.hints.valence
    top.score second.score h1 h2 hpos
  have ha := @weighted_between top.hints.arousal second.hints.arousal
    top.score second.score h1 h2 hpos
  unfold blended_valence blended_arousal
  rw [if_neg hne]
  exact ⟨hv.1, hv.2, ha.1, ha.2⟩

/-- Witness for C2's amended bound at the spec's example scores. -/
theorem c2_blend_between_witness :
    min (7/10 : ℚ) (2/5) ≤
      blended_valence ⟨"A happy and joyful photo", 7/10, ⟨7/10, 6/10, "joy"⟩⟩
        ⟨"A calm and peaceful photo", 3/10, ⟨2/5, 7/20, "calm"⟩⟩ ∧
    blended_valence ⟨"A happy and joyful photo", 7/10, ⟨7/10, 6/10, "joy"⟩⟩
        ⟨"A calm and peaceful photo", 3/10, ⟨2/5, 7/20, "calm"⟩⟩ ≤ max (7/10) (2/5) :=
  ⟨(c2_blend_between ⟨"A happy and joyful photo", 7/10, ⟨7/10, 6/10, "joy"⟩⟩
      ⟨"A calm and peaceful photo", 3/10, ⟨2/5, 7/20, "calm"⟩⟩
      (by norm_num) (by norm_num) (by norm_num)).1,
   (c2_blend_between ⟨"A happy and joyful photo", 7/10, ⟨7/10, 6/10, "joy"⟩⟩
      ⟨"A calm and peaceful photo", 3/10, ⟨2/5, 7/20, "calm"⟩⟩
      (by norm_num) (by norm_num) (by norm_num)).2.1⟩

/-- C3: the stored confidence is the top-1 score clamped into [0.5, 0.9] and
rounded to two decimals, hence always in [0.5, 0.9], and it does not depend
on the second-place candidate. -/
theorem c3_confidence (top : MoodCandidate) (rest : List MoodCandidate)
    (e : EmotionResult)
    (h : analyze_emotion_from_image_node (top :: rest) = some e) :
    e.confidence = r2 (min (9/10) (max (1/2) top.score)) ∧
    1/2 ≤ e.confidence ∧ e.confidence ≤ 9/10 ∧
    (∀ second second' rest2 e1 e2,
      analyze_emotion_from_image_node (top :: second :: rest2) = some e1 →
      analyze_emotion_from_image_node (top :: second' :: rest2) = some e2 →
      e1.confidence = e2.confidence) := by
  have hz1 : (1 : ℚ)/2 ≤ min (9/10) (max (1/2) top.score) :=
    le_min (by norm_num) (le_max_left _ _)
  have hz2 : min ((9 : ℚ)/10) (max (1/2) top.score) ≤ 9/10 := min_le_left _ _
  have hcl : max 0 (min 1 (min ((9 : ℚ)/10) (max (1/2) top.score))) =
      min (9/10) (max (1/2) top.score) := by
    rw [min_eq_right (le_trans hz2 (by norm_num)), max_eq_right (le_trans (by norm_num) hz1)]
  have hconf : e.confidence = r2 (min (9/10) (max (1/2) top.score)) := by
    cases rest with
    | nil =>
      rw [show analyze_emotion_from_image_node [top] =
        some { primary := top.hints.primary
               valence := r2 (max (-1) (min 1 top.hints.valence))
               arousal := r2 (max 0 (min 1 top.hints.arousal))
               confidence := r2 (max 0 (min 1 (min (9/10) (max (1/2) top.score)))) } from rfl]
        at h
      cases h
      simpa using congrArg r2 hcl
    | cons second rest2 =>
      rw [show analyze_emotion_from_image_node (top :: second :: rest2) =
        some { primary := top.hints.primary
               valence := r2 (max (-1) (min 1 (blended_valence top second)))
               arousal := r2 (max 0 (min 1 (blended_arousal top second)))
               confidence := r2 (max 0 (min 1 (min (9/10) (max (1/2) top.score)))) } from rfl]
        at h
      cases h
      simpa using congrArg r2 hcl
  have hb : (1 : ℚ)/2 ≤ r2 (min (9/10) (max (1/2) top.score)) ∧
      r2 (min (9/10) (max (1/2) top.score)) ≤ 9/10 := by
    have h50 : ((50 : ℤ) : ℚ) / 100 = 1/2 := by norm_num
    have h90 : ((90 : ℤ) : ℚ) / 100 = 9/10 := by norm_num
    have hlo : ((50 : ℤ) : ℚ) / 100 ≤ min (9/10) (max (1/2) top.score) := by
      rw [h50]; exact hz1
    have hhi : min ((9 : ℚ)/10) (max (1/2) top.score) ≤ ((90 : ℤ) : ℚ) / 100 := by
      rw [h90]; exact hz2
    have hbb := r2_bounds hlo hhi
    rw [h50, h90] at hbb
    exact hbb
  refine ⟨hconf, hconf ▸ hb.1, hconf ▸ hb.2, ?_⟩
  intro second second' rest2 e1 e2 h1 h2
  rw [show analyze_emotion_from_image_node (top :: second :: rest2) =
    some { primary := top.hints.primary
           valence := r2 (max (-1) (min 1 (blended_valence top second)))
           arousal := r2 (max 0 (min 1 (blended_arousal top second)))
           confidence := r2 (max 0 (min 1 (min (9/10) (max (1/2) top.score)))) } from rfl]
    at h1
  rw [show analyze_emotion_from_image_node (top :: second' :: rest2) =
    some { primary := top.hints.primary
           valence := r2 (max (-1) (min 1 (blended_valence top second')))
           arousal := r2 (max 0 (min 1 (blended_arousal top second')))
           confidence := r2 (max 0 (min 1 (min (9/10) (max (1/2) top.score)))) } from rfl]
    at h2
  cases h1
  cases h2
  rfl

/-- Witness for C3 at the score-0.99 extreme from the spec (confidence is
clamped to 0.9). -/
theorem c3_confidence_witness :
    (⟨"joy", 7/10, 3/5, 9/10⟩ : EmotionResult).confidence =
      r2 (min (9/10) (max (1/2) (99/100))) ∧
    1/2 ≤ (⟨"joy", 7/10, 3/5, 9/10⟩ : EmotionResult).confidence ∧
    (⟨"joy", 7/10, 3/5, 9/10⟩ : EmotionResult).confidence ≤ 9/10 :=
  have h := c3_confidence ⟨"A happy and joyful photo", 99/100, ⟨7/10, 6/10, "joy"⟩⟩ []
    ⟨"joy", 7/10, 3/5, 9/10⟩ (by with_unfolding_all decide)
  ⟨h.1, h.2.1, h.2.2.1⟩

/-- C4: whatever duration the hosted generator returns, both
brief-composition nodes store a duration in [120, 180], replacing
out-of-range values with the nearest bound and keeping in-range values
unchanged. -/
theorem c4_duration_clamped (llm_t : String → EmotionResult → MusicBrief)
    (llm_i : EmotionResult → MusicBrief) (user_text : String) (emo : EmotionResult) :
    (120 ≤ (compose_brief_node llm_t user_text emo).duration_sec ∧
      (compose_brief_node llm_t user_text emo).duration_sec ≤ 180 ∧
      ((llm_t user_text emo).duration_sec < 120 →
        (compose_brief_node llm_t user_text emo).duration_sec = 120) ∧
      (180 < (llm_t user_text emo).duration_sec →
        (compose_brief_node llm_t user_text emo).duration_sec = 180) ∧
      (120 ≤ (llm_t user_text emo).duration_sec → (llm_t user_text emo).duration_sec ≤ 180 →
        compose_brief_node llm_t user_text emo = llm_t user_text emo)) ∧
    (120 ≤ (image_compose_brief_node llm_i emo).duration_sec ∧
      (image_compose_brief_node llm_i emo).duration_sec ≤ 180 ∧
      ((llm_i emo).duration_sec < 120 →
        (image_compose_brief_node llm_i emo).duration_sec = 120) ∧
      (180 < (llm_i emo).duration_sec →
        (image_compose_brief_node llm_i emo).duration_sec = 180) ∧
      (120 ≤ (llm_i emo).duration_sec → (llm_i emo).duration_sec ≤ 180 →
        image_compose_brief_node llm_i emo = llm_i emo)) := by
  have key : ∀ b : MusicBrief,
      120 ≤ (clamp_duration b).duration_sec ∧ (clamp_duration b).duration_sec ≤ 180 ∧
      (b.duration_sec < 120 → (clamp_duration b).duration_sec = 120) ∧
      (180 < b.duration_sec → (clamp_duration b).duration_sec = 180) ∧
      (120 ≤ b.duration_sec → b.duration_sec ≤ 180 → clamp_duration b = b) := by
    intro b
    unfold clamp_duration
    by_cases h1 : b.duration_sec < 120
    · rw [if_pos h1]
      exact ⟨le_refl _, by norm_num, fun _ => rfl, fun h => absurd h (by omega),
        fun h _ => absurd h (by omega)⟩
    · rw [if_neg h1]
      by_cases h2 : b.duration_sec > 180
      · rw [if_pos h2]
        exact ⟨by norm_num, le_refl _, fun h => absurd h h1, fun _ => rfl,
          fun _ h => absurd h (by omega)⟩
      · rw [if_neg h2]
        exact ⟨by omega, by omega, fun h => absurd h h1, fun h => absurd h h2,
          fun _ _ => rfl⟩
  exact ⟨key (llm_t user_text emo), key (llm_i emo)⟩

/-- Witness for C4: generator replies of 90 and 400 seconds are clamped to
120 and 180 on the text and image nodes respectively. -/
theorem c4_duration_clamped_witness :
    (compose_brief_node (fun _ _ => ⟨"calm", 80, "C major", 90, [], [], "p"⟩)
      "story" ⟨"calm", 0, 1/2, 7/10⟩).duration_sec = 120 ∧
    (image_compose_brief_node (fun _ => ⟨"calm", 80, "C major", 400, [], [], "p"⟩)
      ⟨"calm", 0, 1/2, 7/10⟩).duration_sec = 180 :=
  ⟨(c4_duration_clamped (fun _ _ => ⟨"calm", 80, "C major", 90, [], [], "p"⟩)
      (fun _ => ⟨"calm", 80, "C major", 400, [], [], "p"⟩)
      "story" ⟨"calm", 0, 1/2, 7/10⟩).1.2.2.1 (by decide),
   (c4_duration_clamped (fun _ _ => ⟨"calm", 80, "C major", 90, [], [], "p"⟩)
      (fun _ => ⟨"calm", 80, "C major", 400, [], [], "p"⟩)
      "story" ⟨"calm", 0, 1/2, 7/10⟩).2.2.2.2.1 (by decide)⟩

/-- C5 counterexample: with `USE_REPLICATE` absent, a token present, and the
state carrying `force_generate is True` (as the one-shot text path of the UI
actually passes), the branch chooses "go", not "skip" — refuting the claim
that the flag being `"1"` is necessary. -/
theorem c5_counterexample :
    should_generate ⟨some "sk-x", some "r8-token", none⟩ (some true) = "go" ∧
    (⟨some "sk-x", some "r8-token", none⟩ : Env).USE_REPLICATE ≠ some "1" ∧
    envTruthy (⟨some "sk-x", some "r8-token", none⟩ : Env).REPLICATE_API_TOKEN = true ∧
    should_generate ⟨some "sk-x", some "r8-token", none⟩ (some true) ≠ "skip" := by
  with_unfolding_all decide

/-- C5 amended: the branch chooses "go" exactly when (the `USE_REPLICATE`
flag equals "1" or the state carries `force_generate is True`) and a
Replicate token is present (truthy); otherwise it chooses "skip". -/
theorem c5_branch_guard (env : Env) (force : Option Bool) :
    should_generate env force =
      (if ((env.USE_REPLICATE.getD "0" = "1") ∨ force = some true) ∧
          envTruthy env.REPLICATE_API_TOKEN = true then "go" else "skip") := by
  unfold should_generate
  refine if_congr ?_ rfl rfl
  simp [Bool.and_eq_true, Bool.or_eq_true, beq_iff_eq]

/-- C6 counterexample: the text-path node stores the model's schema-valid
reply unchanged, so a valence of 0.123 is stored with three decimals —
refuting the claim that both creation paths round to two decimal places
before storage. -/
theorem c6_counterexample :
    analyze_emotion_node (fun _ => ⟨"calm", 123/1000, 1/2, 7/10⟩) "이야기" =
      .ok ⟨"calm", 123/1000, 1/2, 7/10⟩ ∧
    r2 ((123 : ℚ)/1000) ≠ (123 : ℚ)/1000 := by
  constructor
  · with_unfolding_all rfl
  · with_unfolding_all decide

/-- C6 amended: the image-path aggregator stores numeric fields clamped into
their ranges and rounded to two decimals; the text-path node stores the
schema-validated model reply unchanged, so its fields are within ranges
whenever the node succeeds, but are not rounded. -/
theorem c6_storage_invariant :
    (∀ (top : MoodCandidate) (rest : List MoodCandidate) (e : EmotionResult),
      analyze_emotion_from_image_node (top :: rest) = some e →
      (-1 ≤ e.valence ∧ e.valence ≤ 1 ∧ 0 ≤ e.arousal ∧ e.arousal ≤ 1 ∧
       0 ≤ e.confidence ∧ e.confidence ≤ 1 ∧
       r2 e.valence = e.valence ∧ r2 e.arousal = e.arousal ∧
       r2 e.confidence = e.confidence)) ∧
    (∀ (llm : String → EmotionResult) (s : String) (e : EmotionResult),
      analyze_emotion_node llm s = .ok e →
      (e = llm s ∧ -1 ≤ e.valence ∧ e.valence ≤ 1 ∧ 0 ≤ e.arousal ∧
       e.arousal ≤ 1 ∧ 0 ≤ e.confidence ∧ e.confidence ≤ 1)) := by
  constructor
  · intro top rest e h
    have key : ∀ x y z : ℚ,
        e = ⟨top.hints.primary, r2 (max (-1) (min 1 x)), r2 (max 0 (min 1 y)),
              r2 (max 0 (min 1 z))⟩ →
        (-1 ≤ e.valence ∧ e.valence ≤ 1 ∧ 0 ≤ e.arousal ∧ e.arousal ≤ 1 ∧
         0 ≤ e.confidence ∧ e.confidence ≤ 1 ∧
         r2 e.valence = e.valence ∧ r2 e.arousal = e.arousal ∧
         r2 e.confidence = e.confidence) := by
      intro x y z he
      subst he
      have hm100 : ((-100 : ℤ) : ℚ) / 100 = -1 := by norm_num
      have h0 : ((0 : ℤ) : ℚ) / 100 = 0 := by norm_num
      have h100 : ((100 : ℤ) : ℚ) / 100 = 1 := by norm_num
      have hv : -1 ≤ r2 (max (-1) (min 1 x)) ∧ r2 (max (-1) (min 1 x)) ≤ 1 := by
        have hlo : ((-100 : ℤ) : ℚ) / 100 ≤ max (-1) (min 1 x) := by
          rw [hm100]; exact le_max_left _ _
        have hhi : max (-1 : ℚ) (min 1 x) ≤ ((100 : ℤ) : ℚ) / 100 := by
          rw [h100]; exact max_le (by norm_num) (min_le_left _ _)
        have hbb := r2_bounds hlo hhi
        rw [hm100, h100] at hbb
        exact hbb
      have haa : ∀ w : ℚ, 0 ≤ r2 (max 0 (min 1 w)) ∧ r2 (max 0 (min 1 w)) ≤ 1 := by
        intro w
        have hlo : ((0 : ℤ) : ℚ) / 100 ≤ max 0 (min 1 w) := by
          rw [h0]; exact le_max_left _ _
        have hhi : max (0 : ℚ) (min 1 w) ≤ ((100 : ℤ) : ℚ) / 100 := by
          rw [h100]; exact max_le (by norm_num) (min_le_left _ _)
        have hbb := r2_bounds hlo hhi
        rw [h0, h100] at hbb
        exact hbb
      exact ⟨hv.1, hv.2, (haa y).1, (haa y).2, (haa z).1, (haa z).2,
        r2_idem _, r2_idem _, r2_idem _⟩
    cases rest with
    | nil =>
      rw [show analyze_emotion_from_image_node [top] =
        some { primary := top.hints.primary
               valence := r2 (max (-1) (min 1 top.hints.valence))
               arousal := r2 (max 0 (min 1 top.hints.arousal))
               confidence := r2 (max 0 (min 1 (min (9/10) (max (1/2) top.score)))) }
        from rfl] at h
      cases h
      exact key _ _ _ rfl
    | cons second rest2 =>
      rw [show analyze_emotion_from_image_node (top :: second :: rest2) =
        some { primary := top.hints.primary
               valence := r2 (max (-1) (min 1 (blended_valence top second)))
               arousal := r2 (max 0 (min 1 (blended_arousal top second)))
               confidence := r2 (max 0 (min 1 (min (9/10) (max (1/2) top.score)))) }
        from rfl] at h
      cases h
      exact key _ _ _ rfl
  · intro llm s e h
    unfold analyze_emotion_node at h
    by_cases hv : (llm s).schema_valid
    · rw [if_pos hv] at h
      cases h
      have hranges := hv
      unfold EmotionResult.schema_valid at hranges
      simp only [Bool.and_eq_true, decide_eq_true_eq] at hranges
      exact ⟨rfl, hranges.1.1.1.1.1, hranges.1.1.1.1.2, hranges.1.1.1.2,
        hranges.1.1.2, hranges.1.2, hranges.2⟩
    · rw [if_neg hv] at h
      cases h

/-- Witness for C6's amended statement on both paths, at a single-candidate
list and an in-range model reply. -/
theorem c6_storage_invariant_witness :
    (-1 ≤ (⟨"joy", 7/10, 3/5, 4/5⟩ : EmotionResult).valence ∧
     (⟨"joy", 7/10, 3/5, 4/5⟩ : EmotionResult).valence ≤ 1 ∧
     0 ≤ (⟨"joy", 7/10, 3/5, 4/5⟩ : EmotionResult).arousal ∧
     (⟨"joy", 7/10, 3/5, 4/5⟩ : EmotionResult).arousal ≤ 1 ∧
     0 ≤ (⟨"joy", 7/10, 3/5, 4/5⟩ : EmotionResult).confidence ∧
     (⟨"joy", 7/10, 3/5, 4/5⟩ : EmotionResult).confidence ≤ 1 ∧
     r2 (⟨"joy", 7/10, 3/5, 4/5⟩ : EmotionResult).valence =
       (⟨"joy", 7/10, 3/5, 4/5⟩ : EmotionResult).valence ∧
     r2 (⟨"joy", 7/10, 3/5, 4/5⟩ : EmotionResult).arousal =
       (⟨"joy", 7/10, 3/5, 4/5⟩ : EmotionResult).arousal ∧
     r2 (⟨"joy", 7/10, 3/5, 4/5⟩ : EmotionResult).confidence =
       (⟨"joy", 7/10, 3/5, 4/5⟩ : EmotionResult).confidence) ∧
    (⟨"calm", 123/1000, 1/2, 7/10⟩ : EmotionResult) =
      (fun (_ : String) => (⟨"calm", 123/1000, 1/2, 7/10⟩ : EmotionResult)) "이야기" :=
  ⟨c6_storage_invariant.1
      ⟨"A happy and joyful photo", 4/5, ⟨7/10, 6/10, "joy"⟩⟩ []
      ⟨"joy", 7/10, 3/5, 4/5⟩ (by with_unfolding_all decide),
   (c6_storage_invariant.2 (fun _ => ⟨"calm", 123/1000, 1/2, 7/10⟩) "이야기"
      ⟨"calm", 123/1000, 1/2, 7/10⟩ (by with_unfolding_all rfl)).1⟩

/-- C9: the strict generator raises before any API call when the token is
absent or the duration is outside [120, 180]; on the REST fallback the saved
file path is returned exactly when the job's terminal status is "succeeded",
and any other terminal status raises (after the API call). -/
theorem c9_strict_generation (env : Env) (hr : Bool) (nout : String)
    (job : ReplicateJob) (save : String → String) (prompt : String) (duration : ℤ) :
    (envTruthy env.REPLICATE_API_TOKEN = false →
      generate_with_replicate_strict env hr nout job save prompt duration =
        (.error "REPLICATE_API_TOKEN이 없습니다 (.env 확인)", false)) ∧
    (duration < 120 ∨ 180 < duration →
      ((generate_with_replicate_strict env hr nout job save prompt duration).2 = false ∧
       ∃ msg, (generate_with_replicate_strict env hr nout job save prompt duration).1 =
         .error msg)) ∧
    (hr = false → envTruthy env.REPLICATE_API_TOKEN = true →
     120 ≤ duration → duration ≤ 180 →
      ((job.terminal_status = .succeeded →
        generate_with_replicate_strict env hr nout job save prompt duration =
          (.ok (save job.output), true)) ∧
       (job.terminal_status ≠ .succeeded →
        ∃ msg, generate_with_replicate_strict env hr nout job save prompt duration =
          (.error msg, true)))) := by
  refine ⟨?_, ?_, ?_⟩
  · intro h
    simp [generate_with_replicate_strict, h]
  · intro h
    by_cases ht : envTruthy env.REPLICATE_API_TOKEN = true
    · have hd : (decide (120 ≤ duration) && decide (duration ≤ 180)) = false := by
        cases h with
        | inl h =>
          have hx : decide (120 ≤ duration) = false := by simp; omega
          simp [hx]
        | inr h =>
          have hx : decide (duration ≤ 180) = false := by simp; omega
          simp [hx]
      refine ⟨?_, "duration(초)은 120~180 범위여야 합니다", ?_⟩ <;>
        simp [generate_with_replicate_strict, ht, hd]
    · have ht' : envTruthy env.REPLICATE_API_TOKEN = false := by
        simpa using ht
      refine ⟨?_, "REPLICATE_API_TOKEN이 없습니다 (.env 확인)", ?_⟩ <;>
        simp [generate_with_replicate_strict, ht']
  · intro hhr ht h120 h180
    constructor
    · intro hs
      simp [generate_with_replicate_strict, replicate_run, ht, h120, h180, hhr, hs]
    · intro hs
      cases hjs : job.terminal_status with
      | succeeded => exact absurd hjs hs
      | failed =>
        exact ⟨"Replicate failed: failed",
          by simp [generate_with_replicate_strict, replicate_run, ht, h120, h180, hhr, hjs]⟩
      | canceled =>
        exact ⟨"Replicate failed: canceled",
          by simp [generate_with_replicate_strict, replicate_run, ht, h120, h180, hhr, hjs]⟩

/-- Witness for C9: a missing token, an out-of-range duration, and a failed
REST job each raise; a succeeded REST job returns the saved path. -/
theorem c9_strict_generation_witness :
    generate_with_replicate_strict ⟨some "sk", none, some "1"⟩ false "n"
        ⟨.succeeded, "https://x/a.wav"⟩ (fun u => u) "p" 150 =
      (.error "REPLICATE_API_TOKEN이 없습니다 (.env 확인)", false) ∧
    ((generate_with_replicate_strict ⟨some "sk", some "tok", some "1"⟩ false "n"
        ⟨.succeeded, "https://x/a.wav"⟩ (fun u => u) "p" 200).2 = false ∧
     ∃ msg, (generate_with_replicate_strict ⟨some "sk", some "tok", some "1"⟩ false "n"
        ⟨.succeeded, "https://x/a.wav"⟩ (fun u => u) "p" 200).1 = .error msg) ∧
    generate_with_replicate_strict ⟨some "sk", some "tok", some "1"⟩ false "n"
        ⟨.succeeded, "https://x/a.wav"⟩ (fun u => u) "p" 150 =
      (.ok "https://x/a.wav", true) ∧
    ∃ msg, generate_with_replicate_strict ⟨some "sk", some "tok", some "1"⟩ false "n"
        ⟨.failed, "https://x/a.wav"⟩ (fun u => u) "p" 150 = (.error msg, true) :=
  ⟨(c9_strict_generation ⟨some "sk", none, some "1"⟩ false "n"
      ⟨.succeeded, "https://x/a.wav"⟩ (fun u => u) "p" 150).1 (by with_unfolding_all decide),
   (c9_strict_generation ⟨some "sk", some "tok", some "1"⟩ false "n"
      ⟨.succeeded, "https://x/a.wav"⟩ (fun u => u) "p" 200).2.1 (by omega),
   ((c9_strict_generation ⟨some "sk", some "tok", some "1"⟩ false "n"
      ⟨.succeeded, "https://x/a.wav"⟩ (fun u => u) "p" 150).2.2 rfl
      (by with_unfolding_all decide) (by omega) (by omega)).1 rfl,
   ((c9_strict_generation ⟨some "sk", some "tok", some "1"⟩ false "n"
      ⟨.failed, "https://x/a.wav"⟩ (fun u => u) "p" 150).2.2 rfl
      (by with_unfolding_all decide) (by omega) (by omega)).2 (by with_unfolding_all decide)⟩

/-- C8: on an empty or all-whitespace story with no image, each of the three
UI actions returns the please-enter-input status without invoking any hosted
model and without touching the cached results. -/
theorem c8_empty_input_rejected (ext : Ext) (env : Env) (job : ReplicateJob)
    (st0 : AppState) (s : String) (h : _norm s = "") :
    analyze_emotion_only ext st0 s none =
      (st0, ⟨none, none, "⚠️ 입력이 비어 있습니다."⟩, 0) ∧
    generate_music_brief_only ext st0 s none =
      (st0, ⟨none, none, "⚠️ 입력이 비어 있습니다."⟩, 0) ∧
    generate_full_music env ext job st0 s none =
      (st0, ⟨none, none, none, "⚠️ 입력이 비어 있습니다."⟩, 0) := by
  refine ⟨?_, ?_, ?_⟩
  · simp [analyze_emotion_only, h]
  · simp [generate_music_brief_only, h]
  · simp [generate_full_music, h]

/-- Witness for C8 at an all-whitespace story. -/
theorem c8_empty_input_rejected_witness :
    analyze_emotion_only
        ⟨fun _ => [], fun _ => ⟨"calm", 0, 1/2, 7/10⟩,
         fun _ _ => ⟨"calm", 80, "C", 150, [], [], "p"⟩,
         fun _ => ⟨"calm", 80, "C", 150, [], [], "p"⟩,
         fun u => u, fun p _ => p, false, "n"⟩
        ⟨none, none, none, none, "text"⟩ " \t\n  " none =
      (⟨none, none, none, none, "text"⟩, ⟨none, none, "⚠️ 입력이 비어 있습니다."⟩, 0) ∧
    generate_music_brief_only
        ⟨fun _ => [], fun _ => ⟨"calm", 0, 1/2, 7/10⟩,
         fun _ _ => ⟨"calm", 80, "C", 150, [], [], "p"⟩,
         fun _ => ⟨"calm", 80, "C", 150, [], [], "p"⟩,
         fun u => u, fun p _ => p, false, "n"⟩
        ⟨none, none, none, none, "text"⟩ " \t\n  " none =
      (⟨none, none, none, none, "text"⟩, ⟨none, none, "⚠️ 입력이 비어 있습니다."⟩, 0) ∧
    generate_full_music ⟨some "sk", some "tok", some "1"⟩
        ⟨fun _ => [], fun _ => ⟨"calm", 0, 1/2, 7/10⟩,
         fun _ _ => ⟨"calm", 80, "C", 150, [], [], "p"⟩,
         fun _ => ⟨"calm", 80, "C", 150, [], [], "p"⟩,
         fun u => u, fun p _ => p, false, "n"⟩
        ⟨.succeeded, "u"⟩ ⟨none, none, none, none, "text"⟩ " \t\n  " none =
      (⟨none, none, none, none, "text"⟩, ⟨none, none, none, "⚠️ 입력이 비어 있습니다."⟩, 0) :=
  c8_empty_input_rejected
    ⟨fun _ => [], fun _ => ⟨"calm", 0, 1/2, 7/10⟩,
     fun _ _ => ⟨"calm", 80, "C", 150, [], [], "p"⟩,
     fun _ => ⟨"calm", 80, "C", 150, [], [], "p"⟩,
     fun u => u, fun p _ => p, false, "n"⟩
    ⟨some "sk", some "tok", some "1"⟩
    ⟨.succeeded, "u"⟩ ⟨none, none, none, none, "text"⟩ " \t\n  "
    (by with_unfolding_all decide)

/-- C10: story identity is whitespace-insensitive — when the cached
normalized story equals the new story's normalized form (and is non-empty),
a second text analysis is a cache hit: no model call, the stored
EmotionResult is returned, and the session state (including any cached
brief) is untouched. -/
theorem c10_whitespace_insensitive_identity (ext : Ext) (st0 : AppState)
    (s1 s2 : String) (e : EmotionResult)
    (hmode : st0.current_mode = "text")
    (hstory : st0.user_story = some (_norm s1))
    (hemo : st0.emotion_result = some e)
    (heq : _norm s1 = _norm s2)
    (hne : _norm s2 ≠ "") :
    analyze_emotion_only ext st0 s2 none =
      (st0, ⟨some e, none, "♻️ 이전 감정 분석 결과 재사용 (텍스트)"⟩, 0) := by
  have hb : (_norm s2 == "") = false := by
    simp only [beq_eq_false_iff_ne]
    exact hne
  have hsame : (st0.user_story != some (_norm s2)) = false := by
    simp [hstory, heq]
  simp [analyze_emotion_only, hb, hsame, AppState.has_emotion_analysis,
    hmode, hstory, heq, hemo]

/-- Witness for C10 on two stories differing only in whitespace. -/
theorem c10_whitespace_insensitive_identity_witness :
    analyze_emotion_only
        ⟨fun _ => [], fun _ => ⟨"calm", 0, 1/2, 7/10⟩,
         fun _ _ => ⟨"calm", 80, "C", 150, [], [], "p"⟩,
         fun _ => ⟨"calm", 80, "C", 150, [], [], "p"⟩,
         fun u => u, fun p _ => p, false, "n"⟩
        ⟨some ⟨"joy", 61/100, 53/100, 7/10⟩, some ⟨"calm", 80, "C", 150, [], [], "p"⟩,
         some "hello world", none, "text"⟩
        "  hello   world " none =
      (⟨some ⟨"joy", 61/100, 53/100, 7/10⟩, some ⟨"calm", 80, "C", 150, [], [], "p"⟩,
        some "hello world", none, "text"⟩,
       ⟨some ⟨"joy", 61/100, 53/100, 7/10⟩, none, "♻️ 이전 감정 분석 결과 재사용 (텍스트)"⟩, 0) :=
  c10_whitespace_insensitive_identity
    ⟨fun _ => [], fun _ => ⟨"calm", 0, 1/2, 7/10⟩,
     fun _ _ => ⟨"calm", 80, "C", 150, [], [], "p"⟩,
     fun _ => ⟨"calm", 80, "C", 150, [], [], "p"⟩,
     fun u => u, fun p _ => p, false, "n"⟩
    ⟨some ⟨"joy", 61/100, 53/100, 7/10⟩, some ⟨"calm", 80, "C", 150, [], [], "p"⟩,
     some "hello world", none, "text"⟩
    "hello world" "  hello   world " ⟨"joy", 61/100, 53/100, 7/10⟩
    rfl (by with_unfolding_all decide) rfl (by with_unfolding_all decide)
    (by with_unfolding_all decide)

/-- C7: repeating emotion analysis on an unchanged input (same normalized
story in text mode, same path in image mode) is a cache hit — no hosted
model call, the stored EmotionResult returned, session state untouched;
and each of the three actions, given a changed input, first clears the
cached EmotionResult and MusicBrief and then works from a fresh analysis. -/
theorem c7_session_cache (ext : Ext) (env : Env) (job : ReplicateJob)
    (st0 : AppState) (s : String) (img : String) (e enew : EmotionResult) :
    (st0.current_mode = "text" → st0.user_story = some (_norm s) →
     st0.emotion_result = some e → _norm s ≠ "" →
     analyze_emotion_only ext st0 s none =
       (st0, ⟨some e, none, "♻️ 이전 감정 분석 결과 재사용 (텍스트)"⟩, 0)) ∧
    (st0.current_mode = "image" → st0.image_path = some img →
     st0.emotion_result = some e →
     analyze_emotion_only ext st0 s (some img) =
       (st0, ⟨some e, none, "♻️ 이전 감정 분석 결과 재사용 (이미지)"⟩, 0)) ∧
    (st0.user_story ≠ some (_norm s) → _norm s ≠ "" →
     analyze_emotion_node ext.emotion_llm s = .ok enew →
     analyze_emotion_only ext st0 s none =
       (⟨some enew, none, some (_norm s), none, "text"⟩,
        ⟨some enew, none, "✅ 텍스트 감정 분석 완료!"⟩, 1)) ∧
    (st0.image_path ≠ some img →
     analyze_emotion_from_image_node (ext.clip img) = some enew →
     analyze_emotion_only ext st0 s (some img) =
       (⟨some enew, none, none, some img, "image"⟩,
        ⟨some enew, none, "✅ 이미지 감정 분석 완료!"⟩, 1)) ∧
    (st0.user_story ≠ some (_norm s) → _norm s ≠ "" →
     analyze_emotion_node ext.emotion_llm s = .ok enew →
     generate_music_brief_only ext st0 s none =
       (⟨some enew, some (compose_brief_node ext.compose_llm s enew),
          some (_norm s), none, "text"⟩,
        ⟨some enew, some (compose_brief_node ext.compose_llm s enew),
          "✅ 텍스트 감정 분석 및 음악 브리프 생성 완료!"⟩, 2)) ∧
    (st0.image_path ≠ some img →
     analyze_emotion_from_image_node (ext.clip img) = some enew →
     generate_music_brief_only ext st0 s (some img) =
       (⟨some enew, some (image_compose_brief_node ext.image_compose_llm enew),
          none, some img, "image"⟩,
        ⟨some enew, some (image_compose_brief_node ext.image_compose_llm enew),
          "✅ 이미지 감정 분석 및 음악 브리프 생성 완료!"⟩, 2)) ∧
    (st0.user_story ≠ some (_norm s) → _norm s ≠ "" →
     envTruthy env.OPENAI_API_KEY = true →
     envTruthy env.REPLICATE_API_TOKEN = false →
     analyze_emotion_node ext.emotion_llm s = .ok enew →
     generate_full_music env ext job st0 s none =
       (⟨some enew, some (compose_brief_node ext.compose_llm s enew),
          some (_norm s), none, "text"⟩,
        ⟨some enew, some (compose_brief_node ext.compose_llm s enew), none,
          "⚠️ USE_REPLICATE=1 또는 REPLICATE 토큰 없음 → 음악 생성 건너뜀"⟩, 2)) ∧
    (st0.image_path ≠ some img →
     envTruthy env.OPENAI_API_KEY = true →
     envTruthy env.REPLICATE_API_TOKEN = false →
     analyze_emotion_from_image_node (ext.clip img) = some enew →
     generate_full_music env ext job st0 s (some img) =
       (⟨some enew, some (image_compose_brief_node ext.image_compose_llm enew),
          none, some img, "image"⟩,
        ⟨some enew, some (image_compose_brief_node ext.image_compose_llm enew), none,
          "⚠️ USE_REPLICATE=1 또는 REPLICATE 토큰 없음 → 음악 생성 건너뜀"⟩, 2)) ∧
    (st0.user_story ≠ some (_norm s) → _norm s ≠ "" →
     envTruthy env.OPENAI_API_KEY = false →
     generate_full_music env ext job st0 s none =
       (⟨none, none, some (_norm s), none, "text"⟩,
        ⟨none, none, none, "❌ OPENAI_API_KEY 필요"⟩, 0)) := by
  refine ⟨?_, ?_, ?_, ?_, ?_, ?_, ?_, ?_, ?_⟩
  · intro hmode hstory hemo hne
    have hb : (_norm s == "") = false := by
      simp only [beq_eq_false_iff_ne]; exact hne
    have hsame : (st0.user_story != some (_norm s)) = false := by simp [hstory]
    simp [analyze_emotion_only, hb, hsame, AppState.has_emotion_analysis,
      hmode, hstory, hemo]
  · intro hmode himg hemo
    have hsame : (st0.image_path != some img) = false := by simp [himg]
    simp [analyze_emotion_only, hsame, AppState.has_emotion_analysis,
      hmode, himg, hemo]
  · intro hdiff hne hok
    have hb : (_norm s == "") = false := by
      simp only [beq_eq_false_iff_ne]; exact hne
    have hd : (st0.user_story != some (_norm s)) = true := by
      simp only [bne_iff_ne]; exact hdiff
    simp [analyze_emotion_only, hb, hd, AppState.clear, AppState.set_story,
      AppState.has_emotion_analysis, hok]
  · intro hdiff hok
    have hd : (st0.image_path != some img) = true := by
      simp only [bne_iff_ne]; exact hdiff
    simp [analyze_emotion_only, hd, AppState.clear, AppState.set_image,
      AppState.has_emotion_analysis, hok]
  · intro hdiff hne hok
    have hb : (_norm s == "") = false := by
      simp only [beq_eq_false_iff_ne]; exact hne
    have hd : (st0.user_story != some (_norm s)) = true := by
      simp only [bne_iff_ne]; exact hdiff
    simp [generate_music_brief_only, hb, hd, AppState.clear, AppState.set_story,
      AppState.has_emotion_analysis, hok]
  · intro hdiff hok
    have hd : (st0.image_path != some img) = true := by
      simp only [bne_iff_ne]; exact hdiff
    simp [generate_music_brief_only, hd, AppState.clear, AppState.set_image,
      AppState.has_emotion_analysis, hok]
  · intro hdiff hne hopen htok hok
    have hb : (_norm s == "") = false := by
      simp only [beq_eq_false_iff_ne]; exact hne
    have hd : (st0.user_story != some (_norm s)) = true := by
      simp only [bne_iff_ne]; exact hdiff
    simp [generate_full_music, hb, hd, hopen, htok, AppState.clear,
      AppState.set_story, AppState.has_emotion_analysis, AppState.has_music_brief, hok]
  · intro hdiff hopen htok hok
    have hd : (st0.image_path != some img) = true := by
      simp only [bne_iff_ne]; exact hdiff
    simp [generate_full_music, hd, hopen, htok, AppState.clear,
      AppState.set_image, AppState.has_emotion_analysis, AppState.has_music_brief, hok]
  · intro hdiff hne hopen
    have hb : (_norm s == "") = false := by
      simp only [beq_eq_false_iff_ne]; exact hne
    have hd : (st0.user_story != some (_norm s)) = true := by
      simp only [bne_iff_ne]; exact hdiff
    simp [generate_full_music, hb, hd, hopen, AppState.clear, AppState.set_story]

/-- Witness for C7: a text hit, an image hit, and the invalidation of a
stale cache by all three actions (text and image inputs), at fixed
collaborators and session states. -/
theorem c7_session_cache_witness :
    (analyze_emotion_only ext_fixed
        ⟨some ⟨"calm", 1/2, 1/2, 7/10⟩, none, some "hello world", none, "text"⟩
        "hello world" none =
      (⟨some ⟨"calm", 1/2, 1/2, 7/10⟩, none, some "hello world", none, "text"⟩,
       ⟨some ⟨"calm", 1/2, 1/2, 7/10⟩, none, "♻️ 이전 감정 분석 결과 재사용 (텍스트)"⟩, 0)) ∧
    (analyze_emotion_only ext_fixed
        ⟨some ⟨"calm", 1/2, 1/2, 7/10⟩, none, none, some "/img/a.png", "image"⟩
        "hello world" (some "/img/a.png") =
      (⟨some ⟨"calm", 1/2, 1/2, 7/10⟩, none, none, some "/img/a.png", "image"⟩,
       ⟨some ⟨"calm", 1/2, 1/2, 7/10⟩, none, "♻️ 이전 감정 분석 결과 재사용 (이미지)"⟩, 0)) ∧
    (analyze_emotion_only ext_fixed
        ⟨some ⟨"calm", 1/2, 1/2, 7/10⟩, some ⟨"old", 70, "D", 160, [], [], "q"⟩,
         some "old story", some "/img/old.png", "text"⟩
        "hello world" none =
      (⟨some ⟨"joy", 7/10, 3/5, 4/5⟩, none, some (_norm "hello world"), none, "text"⟩,
       ⟨some ⟨"joy", 7/10, 3/5, 4/5⟩, none, "✅ 텍스트 감정 분석 완료!"⟩, 1)) ∧
    (analyze_emotion_only ext_fixed
        ⟨some ⟨"calm", 1/2, 1/2, 7/10⟩, some ⟨"old", 70, "D", 160, [], [], "q"⟩,
         some "old story", some "/img/old.png", "text"⟩
        "hello world" (some "/img/a.png") =
      (⟨some ⟨"joy", 7/10, 3/5, 4/5⟩, none, none, some "/img/a.png", "image"⟩,
       ⟨some ⟨"joy", 7/10, 3/5, 4/5⟩, none, "✅ 이미지 감정 분석 완료!"⟩, 1)) ∧
    (generate_music_brief_only ext_fixed
        ⟨some ⟨"calm", 1/2, 1/2, 7/10⟩, some ⟨"old", 70, "D", 160, [], [], "q"⟩,
         some "old story", some "/img/old.png", "text"⟩
        "hello world" none =
      (⟨some ⟨"joy", 7/10, 3/5, 4/5⟩,
        some (compose_brief_node ext_fixed.compose_llm "hello world" ⟨"joy", 7/10, 3/5, 4/5⟩),
        some (_norm "hello world"), none, "text"⟩,
       ⟨some ⟨"joy", 7/10, 3/5, 4/5⟩,
        some (compose_brief_node ext_fixed.compose_llm "hello world" ⟨"joy", 7/10, 3/5, 4/5⟩),
        "✅ 텍스트 감정 분석 및 음악 브리프 생성 완료!"⟩, 2)) ∧
    (generate_music_brief_only ext_fixed
        ⟨some ⟨"calm", 1/2, 1/2, 7/10⟩, some ⟨"old", 70, "D", 160, [], [], "q"⟩,
         some "old story", some "/img/old.png", "text"⟩
        "hello world" (some "/img/a.png") =
      (⟨some ⟨"joy", 7/10, 3/5, 4/5⟩,
        some (image_compose_brief_node ext_fixed.image_compose_llm ⟨"joy", 7/10, 3/5, 4/5⟩),
        none, some "/img/a.png", "image"⟩,
       ⟨some ⟨"joy", 7/10, 3/5, 4/5⟩,
        some (image_compose_brief_node ext_fixed.image_compose_llm ⟨"joy", 7/10, 3/5, 4/5⟩),
        "✅ 이미지 감정 분석 및 음악 브리프 생성 완료!"⟩, 2)) ∧
    (generate_full_music ⟨some "sk", none, none⟩ ext_fixed ⟨.succeeded, "u"⟩
        ⟨some ⟨"calm", 1/2, 1/2, 7/10⟩, some ⟨"old", 70, "D", 160, [], [], "q"⟩,
         some "old story", some "/img/old.png", "text"⟩
        "hello world" none =
      (⟨some ⟨"joy", 7/10, 3/5, 4/5⟩,
        some (compose_brief_node ext_fixed.compose_llm "hello world" ⟨"joy", 7/10, 3/5, 4/5⟩),
        some (_norm "hello world"), none, "text"⟩,
       ⟨some ⟨"joy", 7/10, 3/5, 4/5⟩,
        some (compose_brief_node ext_fixed.compose_llm "hello world" ⟨"joy", 7/10, 3/5, 4/5⟩),
        none, "⚠️ USE_REPLICATE=1 또는 REPLICATE 토큰 없음 → 음악 생성 건너뜀"⟩, 2)) ∧
    (generate_full_music ⟨some "sk", none, none⟩ ext_fixed ⟨.succeeded, "u"⟩
        ⟨some ⟨"calm", 1/2, 1/2, 7/10⟩, some ⟨"old", 70, "D", 160, [], [], "q"⟩,
         some "old story", some "/img/old.png", "text"⟩
        "hello world" (some "/img/a.png") =
      (⟨some ⟨"joy", 7/10, 3/5, 4/5⟩,
        some (image_compose_brief_node ext_fixed.image_compose_llm ⟨"joy", 7/10, 3/5, 4/5⟩),
        none, some "/img/a.png", "image"⟩,
       ⟨some ⟨"joy", 7/10, 3/5, 4/5⟩,
        some (image_compose_brief_node ext_fixed.image_compose_llm ⟨"joy", 7/10, 3/5, 4/5⟩),
        none, "⚠️ USE_REPLICATE=1 또는 REPLICATE 토큰 없음 → 음악 생성 건너뜀"⟩, 2)) ∧
    (generate_full_music ⟨none, some "tok", some "1"⟩ ext_fixed ⟨.succeeded, "u"⟩
        ⟨some ⟨"calm", 1/2, 1/2, 7/10⟩, some ⟨"old", 70, "D", 160, [], [], "q"⟩,
         some "old story", some "/img/old.png", "text"⟩
        "hello world" none =
      (⟨none, none, some (_norm "hello world"), none, "text"⟩,
       ⟨none, none, none, "❌ OPENAI_API_KEY 필요"⟩, 0)) :=
  ⟨(c7_session_cache ext_fixed ⟨some "sk", none, none⟩ ⟨.succeeded, "u"⟩
      ⟨some ⟨"calm", 1/2, 1/2, 7/10⟩, none, some "hello world", none, "text"⟩
      "hello world" "/img/a.png" ⟨"calm", 1/2, 1/2, 7/10⟩ ⟨"joy", 7/10, 3/5, 4/5⟩).1
     rfl (by with_unfolding_all decide) rfl (by with_unfolding_all decide),
   (c7_session_cache ext_fixed ⟨some "sk", none, none⟩ ⟨.succeeded, "u"⟩
      ⟨some ⟨"calm", 1/2, 1/2, 7/10⟩, none, none, some "/img/a.png", "image"⟩
      "hello world" "/img/a.png" ⟨"calm", 1/2, 1/2, 7/10⟩ ⟨"joy", 7/10, 3/5, 4/5⟩).2.1
     rfl rfl rfl,
   (c7_session_cache ext_fixed ⟨some "sk", none, none⟩ ⟨.succeeded, "u"⟩
      ⟨some ⟨"calm", 1/2, 1/2, 7/10⟩, some ⟨"old", 70, "D", 160, [], [], "q"⟩,
       some "old story", some "/img/old.png", "text"⟩
      "hello world" "/img/a.png" ⟨"calm", 1/2, 1/2, 7/10⟩ ⟨"joy", 7/10, 3/5, 4/5⟩).2.2.1
     (by with_unfolding_all decide) (by with_unfolding_all decide)
     (by with_unfolding_all rfl),
   (c7_session_cache ext_fixed ⟨some "sk", none, none⟩ ⟨.succeeded, "u"⟩
      ⟨some ⟨"calm", 1/2, 1/2, 7/10⟩, some ⟨"old", 70, "D", 160, [], [], "q"⟩,
       some "old story", some "/img/old.png", "text"⟩
      "hello world" "/img/a.png" ⟨"calm", 1/2, 1/2, 7/10⟩ ⟨"joy", 7/10, 3/5, 4/5⟩).2.2.2.1
     (by with_unfolding_all decide) (by with_unfolding_all decide),
   (c7_session_cache ext_fixed ⟨some "sk", none, none⟩ ⟨.succeeded, "u"⟩
      ⟨some ⟨"calm", 1/2, 1/2, 7/10⟩, some ⟨"old", 70, "D", 160, [], [], "q"⟩,
       some "old story", some "/img/old.png", "text"⟩
      "hello world" "/img/a.png" ⟨"calm", 1/2, 1/2, 7/10⟩ ⟨"joy", 7/10, 3/5, 4/5⟩).2.2.2.2.1
     (by with_unfolding_all decide) (by with_unfolding_all decide)
     (by with_unfolding_all rfl),
   (c7_session_cache ext_fixed ⟨some "sk", none, none⟩ ⟨.succeeded, "u"⟩
      ⟨some ⟨"calm", 1/2, 1/2, 7/10⟩, some ⟨"old", 70, "D", 160, [], [], "q"⟩,
       some "old story", some "/img/old.png", "text"⟩
      "hello world" "/img/a.png" ⟨"calm", 1/2, 1/2, 7/10⟩ ⟨"joy", 7/10, 3/5, 4/5⟩).2.2.2.2.2.1
     (by with_unfolding_all decide) (by with_unfolding_all decide),
   (c7_session_cache ext_fixed ⟨some "sk", none, none⟩ ⟨.succeeded, "u"⟩
      ⟨some ⟨"calm", 1/2, 1/2, 7/10⟩, some ⟨"old", 70, "D", 160, [], [], "q"⟩,
       some "old story", some "/img/old.png", "text"⟩
      "hello world" "/img/a.png" ⟨"calm", 1/2, 1/2, 7/10⟩ ⟨"joy", 7/10, 3/5, 4/5⟩).2.2.2.2.2.2.1
     (by with_unfolding_all decide) (by with_unfolding_all decide) rfl rfl
     (by with_unfolding_all rfl),
   (c7_session_cache ext_fixed ⟨some "sk", none, none⟩ ⟨.succeeded, "u"⟩
      ⟨some ⟨"calm", 1/2, 1/2, 7/10⟩, some ⟨"old", 70, "D", 160, [], [], "q"⟩,
       some "old story", some "/img/old.png", "text"⟩
      "hello world" "/img/a.png" ⟨"calm", 1/2, 1/2, 7/10⟩ ⟨"joy", 7/10, 3/5, 4/5⟩).2.2.2.2.2.2.2.1
     (by with_unfolding_all decide) rfl rfl (by with_unfolding_all decide),
   (c7_session_cache ext_fixed ⟨none, some "tok", some "1"⟩ ⟨.succeeded, "u"⟩
      ⟨some ⟨"calm", 1/2, 1/2, 7/10⟩, some ⟨"old", 70, "D", 160, [], [], "q"⟩,
       some "old story", some "/img/old.png", "text"⟩
      "hello world" "/img/a.png" ⟨"calm", 1/2, 1/2, 7/10⟩ ⟨"joy", 7/10, 3/5, 4/5⟩).2.2.2.2.2.2.2.2
     (by with_unfolding_all decide) (by with_unfolding_all decide) rfl⟩

end MusicAI
